import Mathlib

/-!
Shallow embedding of the memoirAI server core (app/http_server.py,
app/tools/database_service.py, app/tools/image_captioning.py,
app/tools/story_analysis.py, app/tools/story_generation.py).

External AI collaborators (captioner, story generator, sentiment analyzer,
title generator) and the DynamoDB store are modelled as oracle inputs; the
orchestration logic, fallback policy, validation, and derived-field
computation are translated faithfully from the Python source.
-/

namespace MemoirAI

/-! ### Python string helpers -/

/-- Whitespace characters recognised by Python `str.split()` (ASCII range). -/
def pyIsSpace (c : Char) : Bool :=
  c = ' ' || c = '\t' || c = '\n' || c = '\r' || c = '\x0b' || c = '\x0c'

/-- Splits a character list at every character satisfying `p`, keeping the
(possibly empty) pieces; `cur` is the reversed piece currently being read. -/
def pySplitAux (p : Char → Bool) : List Char → List Char → List (List Char)
  | cur, [] => [cur.reverse]
  | cur, ch :: cs =>
    if p ch then cur.reverse :: pySplitAux p [] cs
    else pySplitAux p (ch :: cur) cs

/-- Python `s.split()` with no arguments: split on whitespace, dropping
empty tokens. -/
def pySplit (s : String) : List String :=
  ((pySplitAux pyIsSpace [] s.data).map (fun l => String.mk l)).filter (fun t => t ≠ "")

/-- Python `s.startswith(pre)`. -/
def pyStartsWith (s pre : String) : Bool := pre.data.isPrefixOf s.data

/-- `len(story_content.split())` in the source. -/
def pyWordCount (s : String) : Nat := (pySplit s).length

/-- Python `str.capitalize()`: first character uppercased, the rest
lowercased (ASCII behaviour). -/
def pyCapitalize (s : String) : String :=
  match s.data with
  | [] => ""
  | c :: cs => String.mk (c.toUpper :: cs.map Char.toLower)

/-- One character of `timestamp.replace(':', '-').replace('.', '-')`. -/
def cleanChar (c : Char) : Char := if c = ':' || c = '.' then '-' else c

/-- `timestamp.replace(':', '-').replace('.', '-')` from
`DatabaseService.save_journal_entry` (both replacements are single-character,
so one character map performs them simultaneously). -/
def cleanTimestamp (ts : String) : String := String.mk (ts.data.map cleanChar)

/-- Python string slicing `s[:8]` (first eight characters). -/
def pyTake8 (s : String) : String := String.mk (s.data.take 8)

/-! ### Outcomes of Python calls -/

/-- Outcome of a Python call: a returned value or a raised exception
(carrying the exception message `str(e)`). -/
inductive PyResult (α : Type) where
  | ok (a : α)
  | exn (msg : String)
  deriving Repr, DecidableEq

/-! ### Data model -/

/-- The dict returned by `StoryAnalysisTool.analyze_story_sentiment`
(a parsed JSON object).  The outer `Option` of each field records whether
the dict carries the key; for `primary_mood` the inner `Option`
distinguishes a key present with a JSON null value (`some none`, which
`json.loads` can produce) from a key with a string value (`some (some m)`).
The other keys matter downstream only through presence or are copied
opaquely, so one level of `Option` suffices for them.  `hasOtherKeys`
records whether the dict carries further keys (relevant only for dict
truthiness). -/
structure SentimentDict where
  error : Option String := none
  primary_mood : Option (Option String) := none
  emotional_intensity : Option Int := none
  overall_sentiment : Option String := none
  hasOtherKeys : Bool := false
  deriving Repr, DecidableEq

/-- Python truthiness of the sentiment dict (nonempty dict); a key present
with a null value still makes the dict nonempty. -/
def SentimentDict.isTruthy (s : SentimentDict) : Bool :=
  s.error.isSome || s.primary_mood.isSome || s.emotional_intensity.isSome ||
    s.overall_sentiment.isSome || s.hasOtherKeys

/-- Python `sentiment_analysis.get('primary_mood', 'neutral')`: the default
fires only when the key is absent; a present key is returned verbatim, so a
present-but-null value yields null (`none`). -/
def SentimentDict.getPrimaryMood (s : SentimentDict) : Option String :=
  match s.primary_mood with
  | none => some "neutral"
  | some v => v

/-- The default sentiment substituted by `create_memoir_entry` when the
analyzer fails or reports an error. -/
def defaultSentiment : SentimentDict :=
  { error := none
    primary_mood := some (some "neutral")
    emotional_intensity := some 5
    overall_sentiment := some "neutral"
    hasOtherKeys := false }

/-- Return value of `StoryAnalysisTool.generate_story_title`: either a
title string or (on exception) a dict with an `error` key. -/
inductive TitleOut where
  | str (s : String)
  | errDict (msg : String)
  deriving Repr, DecidableEq

/-- One element of the `image_metadata` list assembled by the workflow. -/
structure EntryImage where
  image_id : String
  caption : String
  upload_order : Nat
  image_url : String
  deriving Repr, DecidableEq

/-- The journal-entry item written by `DatabaseService.save_journal_entry`.
`primary_mood = none` models a Python `None` in the item, which boto3
serializes as a DynamoDB NULL attribute. -/
structure Entry where
  user_id : String
  entry_id : String
  created_at : String
  updated_at : String
  title : String
  story_content : String
  user_context : String
  tone : String
  images : List EntryImage
  sentiment_analysis : SentimentDict
  primary_mood : Option String
  word_count : Nat
  estimated_read_time : String
  is_favorite : Bool
  privacy_level : String
  tags : List String
  deriving Repr, DecidableEq

/-! ### DatabaseService.save_journal_entry -/

/-- The item dict assembled by `DatabaseService.save_journal_entry` before
`put_item`.  `nowTs` models `datetime.utcnow().isoformat() + 'Z'` and
`uuidFull` models `str(uuid.uuid4())`, both nondeterministic inputs. -/
def entryItem (nowTs uuidFull : String)
    (user_id title story_content user_context tone : String)
    (images : List EntryImage) (sentiment_analysis : Option SentimentDict) :
    Entry :=
  let timestamp := nowTs
  let entry_uuid := pyTake8 uuidFull
  let timestamp_clean := cleanTimestamp timestamp
  let entry_id := "ENTRY_" ++ timestamp_clean ++ "_" ++ entry_uuid
  let word_count := pyWordCount story_content
  let estimated_read_time := toString (max 1 (word_count / 200)) ++ " min"
  let stored_sentiment :=
    match sentiment_analysis with
    | none => ({} : SentimentDict)
    | some s => if s.isTruthy then s else ({} : SentimentDict)
  let primary_mood :=
    match sentiment_analysis with
    | none => some "neutral"
    | some s => if s.isTruthy then s.getPrimaryMood else some "neutral"
  { user_id := user_id
    entry_id := entry_id
    created_at := timestamp
    updated_at := timestamp
    title := title
    story_content := story_content
    user_context := user_context
    tone := tone
    images := images
    sentiment_analysis := stored_sentiment
    primary_mood := primary_mood
    word_count := word_count
    estimated_read_time := estimated_read_time
    is_favorite := false
    privacy_level := "private"
    tags := [] }

/-- `DatabaseService.save_journal_entry`: builds the item and writes it.
`putOutcome` models the DynamoDB `put_item`/counter-increment interaction
(a `ClientError` there is re-raised by the source).  Returns the entry id
together with the item written. -/
def save_journal_entry (putOutcome : PyResult Unit) (nowTs uuidFull : String)
    (user_id title story_content user_context tone : String)
    (images : List EntryImage) (sentiment_analysis : Option SentimentDict) :
    PyResult (String × Entry) :=
  let entry := entryItem nowTs uuidFull user_id title story_content
    user_context tone images sentiment_analysis
  match putOutcome with
  | .exn m => .exn m
  | .ok _ => .ok (entry.entry_id, entry)

/-! ### The create_memoir_entry workflow -/

/-- One submitted image from the request body.  `image_data = none` models
the `image_data` key being absent from the dict. -/
structure ImageIn where
  image_data : Option String := none
  image_format : Option String := none
  deriving Repr, DecidableEq

/-- The parsed request body of `POST /memoir/create_entry`; `none` models a
missing key. -/
structure Request where
  user_id : Option String := none
  images : Option (List ImageIn) := none
  user_context : Option String := none
  tone : Option String := none
  deriving Repr, DecidableEq

/-- The external collaborators of the workflow, as oracles.  `putEntry`
models the store interaction inside `save_journal_entry`. -/
structure Collaborators where
  captioner : String → String → PyResult String
  generator : List String → String → String → PyResult String
  analyzer : String → PyResult SentimentDict
  titler : String → SentimentDict → PyResult TitleOut
  putEntry : PyResult Unit

/-- HTTP-level outcome of the workflow endpoint. -/
inductive HttpResult where
  | ok (entry_id title story_content : String) (sentiment : SentimentDict)
      (images : List EntryImage) (word_count : Nat)
  | err (status : Nat) (msg : String)
  deriving Repr, DecidableEq

/-- Which collaborators the workflow invoked, and the entry persisted (if
any). -/
structure Trace where
  captionerCalls : Nat := 0
  generatorCalled : Bool := false
  analyzerCalled : Bool := false
  titlerCalled : Bool := false
  saveCalled : Bool := false
  savedEntry : Option Entry := none
  deriving Repr, DecidableEq

/-- Number of captioner invocations made while processing one image:
the call happens unless the per-image validation rejects first. -/
def stepCalls (img : ImageIn) : Nat :=
  match img.image_data with
  | none => 0
  | some d => if d = "" then 0 else 1

/-- One iteration of the captioning loop in `create_memoir_entry`
(image at 0-based index `i`): per-image validation, the captioner call, and
the error-sentinel check; on success produces the caption and the
image-metadata record. -/
def captionStep (c : Collaborators) (i : Nat) (img : ImageIn) :
    Except (Nat × String) (String × EntryImage) :=
  match img.image_data with
  | none => .error (400, "Image " ++ toString (i + 1) ++ " missing image_data")
  | some d =>
    if d = "" then
      .error (400, "Image " ++ toString (i + 1) ++ " missing image_data")
    else
      match c.captioner d (img.image_format.getD "jpeg") with
      | .exn m =>
        .error (500, "Error processing image " ++ toString (i + 1) ++ ": " ++ m)
      | .ok cap =>
        if cap = "" || pyStartsWith cap "Error:" then
          .error (500, "Failed to caption image " ++ toString (i + 1) ++ ": " ++ cap)
        else
          .ok (cap,
            { image_id := "img_" ++ toString (i + 1)
              caption := cap
              upload_order := i + 1
              image_url := "placeholder://image_" ++ toString (i + 1) ++ ".jpg" })

/-- The captioning loop of `create_memoir_entry`: sequential over the
images starting at index `i`, aborting on the first failure.  Also returns
the number of captioner invocations made. -/
def captionLoop (c : Collaborators) :
    List ImageIn → Nat → Except (Nat × String) (List String × List EntryImage) × Nat
  | [], _ => (.ok ([], []), 0)
  | img :: rest, i =>
    match captionStep c i img with
    | .error e => (.error e, stepCalls img)
    | .ok (cap, meta) =>
      match captionLoop c rest (i + 1) with
      | (.error e, n) => (.error e, stepCalls img + n)
      | (.ok (caps, metas), n) => (.ok (cap :: caps, meta :: metas), stepCalls img + n)

/-- The fallback title `f"My {tone.capitalize()} Memory"`. -/
def fallbackTitle (tone : String) : String :=
  "My " ++ pyCapitalize tone ++ " Memory"

/-- Step 3 of `create_memoir_entry`: the sentiment used downstream — the
analyzer's dict, or `defaultSentiment` when the analyzer raised or its dict
carries an `error` key. -/
def resolveSentiment (c : Collaborators) (story_content : String) : SentimentDict :=
  match c.analyzer story_content with
  | .exn _ => defaultSentiment
  | .ok s => if s.error.isSome then defaultSentiment else s

/-- Step 4 of `create_memoir_entry`: the title used downstream — the
titler's string, or the fallback title when the titler raised, returned an
error dict, or returned a falsy (empty) string. -/
def resolveTitle (c : Collaborators) (story_content : String)
    (sentiment : SentimentDict) (tone : String) : String :=
  match c.titler story_content sentiment with
  | .exn _ => fallbackTitle tone
  | .ok (.errDict _) => fallbackTitle tone
  | .ok (.str t) => if t = "" then fallbackTitle tone else t

/-- `create_memoir_entry` from `app/http_server.py`: validation, the
caption loop, story generation (fatal on failure), sentiment analysis
(soft, default substituted), title generation (soft, fallback title), and
the save step.  Returns the HTTP outcome and a trace of collaborator
invocations. -/
def create_memoir_entry (c : Collaborators) (nowTs uuidFull : String)
    (req : Request) : HttpResult × Trace :=
  match req.user_id with
  | none => (.err 400 "user_id is required", {})
  | some user_id =>
    match req.images with
    | none => (.err 400 "At least one image is required", {})
    | some [] => (.err 400 "At least one image is required", {})
    | some imgs =>
      let user_context := req.user_context.getD ""
      let tone := req.tone.getD "heartwarming"
      match captionLoop c imgs 0 with
      | (.error (st, msg), n) => (.err st msg, { captionerCalls := n })
      | (.ok (captions, image_metadata), n) =>
        if captions = [] then
          (.err 500 "Failed to generate any image captions", { captionerCalls := n })
        else
          match c.generator captions user_context tone with
          | .exn m =>
            (.err 500 ("Error generating story: " ++ m),
              { captionerCalls := n, generatorCalled := true })
          | .ok story_content =>
            if story_content = "" || pyStartsWith story_content "Error:" then
              (.err 500 ("Failed to generate story: " ++ story_content),
                { captionerCalls := n, generatorCalled := true })
            else
              let sentiment_analysis := resolveSentiment c story_content
              let title := resolveTitle c story_content sentiment_analysis tone
              match save_journal_entry c.putEntry nowTs uuidFull user_id title
                  story_content user_context tone image_metadata
                  (some sentiment_analysis) with
              | .exn m =>
                (.err 500 ("Error saving to database: " ++ m),
                  { captionerCalls := n, generatorCalled := true
                    analyzerCalled := true, titlerCalled := true
                    saveCalled := true })
              | .ok (entry_id, entry) =>
                (.ok entry_id title story_content sentiment_analysis
                    image_metadata (pyWordCount story_content),
                  { captionerCalls := n, generatorCalled := true
                    analyzerCalled := true, titlerCalled := true
                    saveCalled := true, savedEntry := some entry })

/-! ### DatabaseService.delete_entry over an abstract store state -/

/-- The store state visible to `delete_entry`: each user's `total_entries`
counter (absent user → `none`) and which `(user_id, entry_id)` journal items
exist. -/
structure DBState where
  totalEntries : String → Option Nat
  hasEntry : String → String → Bool

/-- The `ADD total_entries :dec` update with condition `total_entries > 0`
run by `delete_entry`: DynamoDB rejects the update (ConditionalCheckFailed,
caught by the source) when the user item or attribute is absent or the
counter is zero; `decFault` injects any other `ClientError` from the
update, which the source also catches. -/
def decrementCounter (st : DBState) (decFault : Bool) (u : String) : DBState :=
  if decFault then st
  else
    match st.totalEntries u with
    | none => st
    | some n =>
      if n > 0 then
        { st with totalEntries := fun v => if v = u then some (n - 1) else st.totalEntries v }
      else st

/-- `DatabaseService.delete_entry`: existence check, conditional delete,
then the guarded counter decrement whose failure is swallowed.  Returns
whether the entry existed together with the new store state. -/
def delete_entry (st : DBState) (decFault : Bool) (u e : String) : Bool × DBState :=
  if st.hasEntry u e then
    let st1 : DBState :=
      { st with hasEntry := fun a b => if a = u && b = e then false else st.hasEntry a b }
    (true, decrementCounter st1 decFault u)
  else
    (false, st)

/-! ### DatabaseService.get_favorite_entries -/

/-- Comparator for Python `entries.sort(key=lambda x: x.get('created_at', ''), reverse=True)`. -/
def createdDesc (a b : Entry) : Bool := decide (b.created_at ≤ a.created_at)

/-- Comparator for Python `entries.sort(key=lambda x: x.get('created_at', ''))`. -/
def createdAsc (a b : Entry) : Bool := decide (a.created_at ≤ b.created_at)

/-- The DynamoDB query issued by `get_favorite_entries`:
`ScanIndexForward` fixes the scan direction over the user's rows (given in
key order), `Limit` bounds the rows examined before the
`is_favorite = :is_favorite` filter expression is applied. -/
def dynamoQueryFavorites (rowsInKeyOrder : List Entry) (scanForward : Bool)
    (lim : Nat) : List Entry :=
  let scanned := if scanForward then rowsInKeyOrder else rowsInKeyOrder.reverse
  (scanned.take lim).filter (fun e => e.is_favorite)

/-- `DatabaseService.get_favorite_entries`: query with limit `limit * 2`,
re-sort by `created_at` per `newest_first` (Python's stable sort, modelled
by `List.mergeSort`), truncate to `limit`. -/
def get_favorite_entries (rowsInKeyOrder : List Entry) (limit : Nat)
    (newest_first : Bool) : List Entry :=
  let entries := dynamoQueryFavorites rowsInKeyOrder (!newest_first) (limit * 2)
  let sorted :=
    if newest_first then entries.mergeSort createdDesc
    else entries.mergeSort createdAsc
  sorted.take limit

/-! ### The mood-filtered listing endpoint -/

/-- The mood vocabulary hard-coded in `get_entries_by_mood` in
`app/http_server.py`. -/
def valid_moods : List String :=
  ["joyful", "nostalgic", "adventurous", "peaceful", "melancholic",
   "excited", "grateful", "reflective", "neutral"]

/-- Outcome of the `GET /users/{id}/entries/mood/{mood}` endpoint. -/
inductive MoodResult where
  | ok (entries : List Entry)
  | badRequest (msg : String)
  deriving Repr, DecidableEq

/-- The `get_entries_by_mood` endpoint from `app/http_server.py`:
validates the mood against the vocabulary before touching the store.
`dbQuery` stands for `db_service.get_entries_by_mood`; the returned flag
records whether the store was queried. -/
def get_entries_by_mood_endpoint (dbQuery : String → String → Nat → List Entry)
    (user_id mood : String) (limit : Nat) : MoodResult × Bool :=
  if mood ∈ valid_moods then
    (.ok (dbQuery user_id mood limit), true)
  else
    (.badRequest "Invalid mood", false)

/-! ### Recovering the timestamp from an entry id -/

/-- Checks that character `c` at position `i` is consistent with the shape
of `datetime.utcnow().isoformat() + 'Z'` (`YYYY-MM-DDTHH:MM:SS.ffffffZ`):
colons exactly at 13 and 16, the dot exactly at 19, and no colon or dot
elsewhere. -/
def isoCharOk (i : Nat) (c : Char) : Bool :=
  if i = 13 || i = 16 then c = ':'
  else if i = 19 then c = '.'
  else !(c = ':' || c = '.')

/-- `isoCharOk` holding at every position from offset `i` on. -/
def isoFrom : Nat → List Char → Bool
  | _, [] => true
  | i, c :: cs => isoCharOk i c && isoFrom (i + 1) cs

/-- The timestamp string has the fixed ISO-8601 shape produced by
`datetime.utcnow().isoformat() + 'Z'` with microseconds present. -/
def isoShape (ts : String) : Bool :=
  ts.length = 27 && isoFrom 0 ts.data

/-- Undoes `cleanChar` at position `i` of an ISO-shaped timestamp. -/
def recoverChar (i : Nat) (c : Char) : Char :=
  if i = 13 || i = 16 then ':' else if i = 19 then '.' else c

/-- Position-wise inverse of `cleanTimestamp` on ISO-shaped timestamps. -/
def recoverAux : Nat → List Char → List Char
  | _, [] => []
  | i, c :: cs => recoverChar i c :: recoverAux (i + 1) cs

/-- Recovers the original `created_at` timestamp from the cleaned one
embedded in an entry id. -/
def recoverTimestamp (s : String) : String := String.mk (recoverAux 0 s.data)

/-! ### Concrete fixtures used to instantiate the theorems -/

namespace Fixtures

/-- A captioner that succeeds on every image. -/
def okCaptioner : String → String → PyResult String :=
  fun d _ => .ok ("A photo of " ++ d)

/-- A well-formed sentiment dict inside the mood vocabulary. -/
def joyfulSentiment : SentimentDict :=
  { primary_mood := some (some "joyful")
    emotional_intensity := some 7
    overall_sentiment := some "positive" }

/-- Collaborators for which every phase succeeds. -/
def baseCollab : Collaborators :=
  { captioner := okCaptioner
    generator := fun _ _ _ => .ok "A lovely day full of small memories."
    analyzer := fun _ => .ok joyfulSentiment
    titler := fun _ _ => .ok (.str "Small Joys")
    putEntry := .ok () }

/-- A concrete `datetime.utcnow().isoformat()` timestamp with the `Z` suffix. -/
def tsA : String := "2025-08-20T23:24:55.123456Z"

/-- A concrete `str(uuid.uuid4())` value. -/
def uuidA : String := "abcd1234-ef00-4a9b-8000-000000000000"

/-- A request with one valid image. -/
def reqOne : Request :=
  { user_id := some "user_1", images := some [{ image_data := some "A" }] }

/-- A request with two valid images. -/
def reqTwo : Request :=
  { user_id := some "user_1"
    images := some [{ image_data := some "A" }, { image_data := some "B" }] }

/-- Collaborators whose captioner raises on the second image only. -/
def failSecondCollab : Collaborators :=
  { baseCollab with
    captioner := fun d _ => if d = "B" then .exn "boom" else okCaptioner d "jpeg" }

/-- Collaborators whose sentiment analyzer raises. -/
def analyzerFailsCollab : Collaborators :=
  { baseCollab with analyzer := fun _ => .exn "sentiment boom" }

/-- Collaborators whose title generator raises. -/
def titlerFailsCollab : Collaborators :=
  { baseCollab with titler := fun _ _ => .exn "title boom" }

/-- A request with one valid image and an explicit tone. -/
def reqOneAdventurous : Request :=
  { user_id := some "user_1"
    images := some [{ image_data := some "A" }]
    tone := some "adventurous" }

/-- A sentiment dict outside the mood vocabulary, with no `error` key. -/
def offVocabSentiment : SentimentDict :=
  { primary_mood := some (some "ecstatic")
    emotional_intensity := some 9
    overall_sentiment := some "positive" }

/-- Collaborators whose analyzer returns an out-of-vocabulary mood. -/
def offVocabCollab : Collaborators :=
  { baseCollab with analyzer := fun _ => .ok offVocabSentiment }

/-- A sentiment dict whose `primary_mood` key is present with a JSON null
value and which carries no `error` key. -/
def nullMoodSentiment : SentimentDict :=
  { primary_mood := some none
    emotional_intensity := some 5
    overall_sentiment := some "neutral" }

/-- Collaborators whose analyzer returns a present-but-null mood. -/
def nullMoodCollab : Collaborators :=
  { baseCollab with analyzer := fun _ => .ok nullMoodSentiment }

/-- A request whose second image carries empty image data. -/
def reqMissingData : Request :=
  { user_id := some "user_1"
    images := some [{ image_data := some "A" }, { image_data := some "" }] }

/-- A request with no user id. -/
def reqNoUser : Request := { images := some [{ image_data := some "A" }] }

/-- A store state with one user owning two entries, one of which is `e1`. -/
def stOne : DBState :=
  { totalEntries := fun u => if u = "user_1" then some 2 else none
    hasEntry := fun u e => u = "user_1" && e = "e1" }

/-- A favorite journal entry. -/
def favEntry : Entry :=
  { user_id := "user_1", entry_id := "ENTRY_a_1", created_at := "2025-08-20T23:24:55.123456Z",
    updated_at := "2025-08-20T23:24:55.123456Z", title := "T", story_content := "one two",
    user_context := "", tone := "heartwarming", images := [], sentiment_analysis := {},
    primary_mood := some "joyful", word_count := 2, estimated_read_time := "1 min",
    is_favorite := true, privacy_level := "private", tags := [] }

end Fixtures

/-! ### Helper lemmas about the caption loop -/

theorem stepCalls_of_ok {c : Collaborators} {i : Nat} {img : ImageIn}
    {v : String × EntryImage} (h : captionStep c i img = Except.ok v) :
    stepCalls img = 1 := by
  unfold captionStep at h
  unfold stepCalls
  cases himg : img.image_data with
  | none => rw [himg] at h; exact absurd h (by simp)
  | some d =>
    rw [himg] at h
    by_cases hd : d = ""
    · simp [hd] at h
    · simp [hd]

theorem captionLoop_error_at (c : Collaborators) :
    ∀ (imgs : List ImageIn) (i k : Nat) (hk : k < imgs.length),
      (∀ j (hj : j < k),
        ∃ v, captionStep c (i + j) (imgs.get ⟨j, Nat.lt_trans hj hk⟩) = Except.ok v) →
      ∀ e : Nat × String,
        captionStep c (i + k) (imgs.get ⟨k, hk⟩) = Except.error e →
        captionLoop c imgs i = (Except.error e, k + stepCalls (imgs.get ⟨k, hk⟩)) := by
  intro imgs
  induction imgs with
  | nil => intro i k hk; exact absurd hk (by simp)
  | cons img rest ih =>
    intro i k hk hpre e herr
    cases k with
    | zero =>
      rw [Nat.add_zero] at herr
      simp only [List.get] at herr
      unfold captionLoop
      rw [herr]
      simp [List.get]
    | succ k' =>
      obtain ⟨v, hv⟩ := hpre 0 (Nat.succ_pos k')
      rw [Nat.add_zero] at hv
      simp only [List.get] at hv
      have hk' : k' < rest.length := by simpa using hk
      have hpre' : ∀ j (hj : j < k'),
          ∃ v, captionStep c (i + 1 + j) (rest.get ⟨j, Nat.lt_trans hj hk'⟩) = Except.ok v := by
        intro j hj
        have hj1 : j + 1 < k' + 1 := by omega
        obtain ⟨w, hw⟩ := hpre (j + 1) hj1
        refine ⟨w, ?_⟩
        have hidx : i + (j + 1) = i + 1 + j := by omega
        rw [hidx] at hw
        simpa [List.get] using hw
      have herr' : captionStep c (i + 1 + k') (rest.get ⟨k', hk'⟩) = Except.error e := by
        have hidx : i + (k' + 1) = i + 1 + k' := by omega
        rw [hidx] at herr
        simpa [List.get] using herr
      have hrec := ih (i + 1) k' hk' hpre' e herr'
      unfold captionLoop
      rw [hv, hrec, stepCalls_of_ok hv]
      simp [List.get]
      omega

theorem captionLoop_error_at0 (c : Collaborators) (imgs : List ImageIn)
    (k : Nat) (hk : k < imgs.length)
    (hpre : ∀ j (hj : j < k),
      ∃ v, captionStep c j (imgs.get ⟨j, Nat.lt_trans hj hk⟩) = Except.ok v)
    (e : Nat × String)
    (herr : captionStep c k (imgs.get ⟨k, hk⟩) = Except.error e) :
    captionLoop c imgs 0 = (Except.error e, k + stepCalls (imgs.get ⟨k, hk⟩)) := by
  apply captionLoop_error_at c imgs 0 k hk
  · intro j hj
    simpa using hpre j hj
  · simpa using herr

/-! ### Helper lemmas about the successful workflow path -/

theorem workflow_saves
    (c : Collaborators) (nowTs uuidFull : String) (req : Request)
    (uid : String) (imgs : List ImageIn) (cap0 : String) (caps : List String)
    (metas : List EntryImage) (n : Nat) (story : String)
    (huid : req.user_id = some uid)
    (himgs : req.images = some imgs)
    (hloop : captionLoop c imgs 0 = (Except.ok (cap0 :: caps, metas), n))
    (hgen : c.generator (cap0 :: caps) (req.user_context.getD "")
      (req.tone.getD "heartwarming") = .ok story)
    (hstory : (story = "" ∨ pyStartsWith story "Error:" = true) → False)
    (hput : c.putEntry = .ok ()) :
    create_memoir_entry c nowTs uuidFull req =
      (HttpResult.ok
          (entryItem nowTs uuidFull uid
            (resolveTitle c story (resolveSentiment c story) (req.tone.getD "heartwarming"))
            story (req.user_context.getD "") (req.tone.getD "heartwarming") metas
            (some (resolveSentiment c story))).entry_id
          (resolveTitle c story (resolveSentiment c story) (req.tone.getD "heartwarming"))
          story (resolveSentiment c story) metas (pyWordCount story),
        { captionerCalls := n, generatorCalled := true, analyzerCalled := true,
          titlerCalled := true, saveCalled := true,
          savedEntry := some (entryItem nowTs uuidFull uid
            (resolveTitle c story (resolveSentiment c story) (req.tone.getD "heartwarming"))
            story (req.user_context.getD "") (req.tone.getD "heartwarming") metas
            (some (resolveSentiment c story))) }) := by
  cases imgs with
  | nil => simp [captionLoop] at hloop
  | cons img0 rest =>
    unfold create_memoir_entry
    rw [huid, himgs]
    simp only [hloop]
    rw [hgen]
    have h1 : story ≠ "" := fun h => hstory (Or.inl h)
    have h2 : pyStartsWith story "Error:" = false := by
      cases h : pyStartsWith story "Error:"
      · rfl
      · exact absurd (Or.inr h) hstory
    unfold save_journal_entry
    rw [hput]
    simp [h1, h2]

theorem entryItem_primary_mood (nowTs uuidFull uid title story ctx tone : String)
    (images : List EntryImage) (s : SentimentDict) :
    (entryItem nowTs uuidFull uid title story ctx tone images (some s)).primary_mood =
      s.getPrimaryMood := by
  by_cases h : s.isTruthy = true
  · simp [entryItem, h]
  · have hp : s.primary_mood = none := by
      rcases hm : s.primary_mood with _ | m
      · rfl
      · exact absurd (by simp [SentimentDict.isTruthy, hm]) h
    simp [entryItem, h, SentimentDict.getPrimaryMood, hp]

/-! ### Helper lemmas about the store state -/

theorem decrementCounter_hasEntry (st : DBState) (d : Bool) (u : String) :
    (decrementCounter st d u).hasEntry = st.hasEntry := by
  unfold decrementCounter
  split
  · rfl
  · split
    · rfl
    · split
      · rfl
      · rfl

theorem decrementCounter_totalEntries_self (st : DBState) (u : String) :
    (decrementCounter st false u).totalEntries u =
      match st.totalEntries u with
      | none => none
      | some n => some (if 0 < n then n - 1 else n) := by
  unfold decrementCounter
  cases h : st.totalEntries u with
  | none => simp [h]
  | some n =>
    by_cases hp : 0 < n
    · simp [h, hp]
    · simp [h, hp]

theorem decrementCounter_totalEntries_other (st : DBState) (d : Bool) (u v : String)
    (hv : v ≠ u) :
    (decrementCounter st d u).totalEntries v = st.totalEntries v := by
  unfold decrementCounter
  split
  · rfl
  · split
    · rfl
    · split
      · simp [hv]
      · rfl

/-! ### Helper lemmas about sorting by creation time -/

theorem mergeSort_createdDesc_sorted (l : List Entry) :
    List.Pairwise (fun a b : Entry => b.created_at ≤ a.created_at)
      (l.mergeSort createdDesc) := by
  have hs : List.Pairwise (fun a b => createdDesc a b = true) (l.mergeSort createdDesc) := by
    apply List.sorted_mergeSort
    · intro a b c hab hbc
      simp only [createdDesc, decide_eq_true_eq] at *
      exact le_trans hbc hab
    · intro a b
      simp only [createdDesc, Bool.or_eq_true, decide_eq_true_eq]
      exact le_total b.created_at a.created_at
  exact hs.imp (fun h => by simpa [createdDesc, decide_eq_true_eq] using h)

theorem mergeSort_createdAsc_sorted (l : List Entry) :
    List.Pairwise (fun a b : Entry => a.created_at ≤ b.created_at)
      (l.mergeSort createdAsc) := by
  have hs : List.Pairwise (fun a b => createdAsc a b = true) (l.mergeSort createdAsc) := by
    apply List.sorted_mergeSort
    · intro a b c hab hbc
      simp only [createdAsc, decide_eq_true_eq] at *
      exact le_trans hab hbc
    · intro a b
      simp only [createdAsc, Bool.or_eq_true, decide_eq_true_eq]
      exact le_total a.created_at b.created_at
  exact hs.imp (fun h => by simpa [createdAsc, decide_eq_true_eq] using h)

/-! ### Helper lemma for recovering the timestamp -/

theorem recoverAux_clean : ∀ (l : List Char) (i : Nat), isoFrom i l = true →
    recoverAux i (l.map cleanChar) = l := by
  intro l
  induction l with
  | nil => intro i _; rfl
  | cons ch cs ih =>
    intro i h
    unfold isoFrom at h
    rw [Bool.and_eq_true] at h
    obtain ⟨h1, h2⟩ := h
    rw [List.map_cons]
    unfold recoverAux
    rw [ih (i + 1) h2]
    have hhead : recoverChar i (cleanChar ch) = ch := by
      by_cases hA : i = 13
      · simp [isoCharOk, hA] at h1
        simp [recoverChar, cleanChar, hA, h1]
      · by_cases hB : i = 16
        · simp [isoCharOk, hA, hB] at h1
          simp [recoverChar, cleanChar, hB, h1]
        · by_cases hC : i = 19
          · simp [isoCharOk, hA, hB, hC] at h1
            simp [recoverChar, cleanChar, hA, hB, hC, h1]
          · simp [isoCharOk, hA, hB, hC] at h1
            obtain ⟨hx, hy⟩ := h1
            simp [recoverChar, cleanChar, hA, hB, hC, hx, hy]
    rw [hhead]

/-! ### Claim theorems -/

/-- Claim C1: if, after the first `k` captioner calls succeed, the captioner
call for the image at 0-based index `k` fails (raises, or returns a string
with the `Error:` sentinel), then `create_memoir_entry` aborts with a
500 error whose message names the failed image by its 1-based position
`k + 1`, the story generator is never invoked, and no journal entry is
persisted (`save_journal_entry` is not called). -/
theorem C1_captioner_failure_aborts
    (c : Collaborators) (nowTs uuidFull : String) (req : Request)
    (uid : String) (imgs : List ImageIn) (k : Nat)
    (huid : req.user_id = some uid)
    (himgs : req.images = some imgs)
    (hk : k < imgs.length)
    (hpre : ∀ j (hj : j < k), ∃ v, captionStep c j imgs[j] = Except.ok v)
    (d : String)
    (hd : imgs[k].image_data = some d) (hdne : d ≠ "")
    (hfail :
      (∃ m, c.captioner d (imgs[k].image_format.getD "jpeg") = .exn m) ∨
      (∃ s, c.captioner d (imgs[k].image_format.getD "jpeg") = .ok s ∧
        pyStartsWith s "Error:" = true)) :
    (∃ pre suf, (create_memoir_entry c nowTs uuidFull req).1 =
        HttpResult.err 500 (pre ++ ("image " ++ toString (k + 1)) ++ suf)) ∧
    (create_memoir_entry c nowTs uuidFull req).2.generatorCalled = false ∧
    (create_memoir_entry c nowTs uuidFull req).2.saveCalled = false ∧
    (create_memoir_entry c nowTs uuidFull req).2.savedEntry = none := by
  have herr : ∃ msg pre suf, captionStep c k imgs[k] = Except.error (500, msg) ∧
      msg = pre ++ ("image " ++ toString (k + 1)) ++ suf := by
    rcases hfail with ⟨m, hm⟩ | ⟨s, hs, hpref⟩
    · refine ⟨"Error processing image " ++ toString (k + 1) ++ ": " ++ m,
        "Error processing ", ": " ++ m, ?_, ?_⟩
      · unfold captionStep
        rw [hd]
        simp [hdne, hm]
      · have h : ("Error processing image " : String) = "Error processing " ++ "image " := by
          decide
        rw [h]
        simp only [String.append_assoc]
    · refine ⟨"Failed to caption image " ++ toString (k + 1) ++ ": " ++ s,
        "Failed to caption ", ": " ++ s, ?_, ?_⟩
      · unfold captionStep
        rw [hd]
        simp [hdne, hs, hpref]
      · have h : ("Failed to caption image " : String) = "Failed to caption " ++ "image " := by
          decide
        rw [h]
        simp only [String.append_assoc]
  obtain ⟨msg, pre, suf, hstep, hmsg⟩ := herr
  have hloop := captionLoop_error_at0 c imgs k hk
    (by intro j hj; simpa [List.get_eq_getElem] using hpre j hj)
    (500, msg) (by simpa [List.get_eq_getElem] using hstep)
  cases imgs with
  | nil => exact absurd hk (by simp)
  | cons img0 rest =>
    have hout : create_memoir_entry c nowTs uuidFull req =
        (HttpResult.err 500 msg,
          { captionerCalls := k + stepCalls ((img0 :: rest).get ⟨k, hk⟩) }) := by
      unfold create_memoir_entry
      rw [huid, himgs]
      simp only [hloop]
    rw [hout]
    refine ⟨⟨pre, suf, by rw [hmsg]⟩, rfl, rfl, rfl⟩

/-- Witness for C1: the captioner raises on image 2 of a two-image request;
the workflow answers 500 naming image 2, without generating a story or
saving. -/
theorem C1_captioner_failure_aborts_witness :
    (∃ pre suf, (create_memoir_entry Fixtures.failSecondCollab Fixtures.tsA Fixtures.uuidA
        Fixtures.reqTwo).1 = HttpResult.err 500 (pre ++ ("image " ++ toString (1 + 1)) ++ suf)) ∧
    (create_memoir_entry Fixtures.failSecondCollab Fixtures.tsA Fixtures.uuidA
        Fixtures.reqTwo).2.generatorCalled = false ∧
    (create_memoir_entry Fixtures.failSecondCollab Fixtures.tsA Fixtures.uuidA
        Fixtures.reqTwo).2.saveCalled = false ∧
    (create_memoir_entry Fixtures.failSecondCollab Fixtures.tsA Fixtures.uuidA
        Fixtures.reqTwo).2.savedEntry = none := by
  apply C1_captioner_failure_aborts Fixtures.failSecondCollab Fixtures.tsA Fixtures.uuidA
    Fixtures.reqTwo
    "user_1" [{ image_data := some "A" }, { image_data := some "B" }] 1 rfl rfl (by decide)
    (?_) "B" rfl (by decide) (Or.inl ⟨"boom", rfl⟩)
  intro j hj
  have hj0 : j = 0 := by omega
  subst hj0
  exact ⟨_, rfl⟩

/-- Claim C2: when the request is valid, captioning and story generation
succeed and the store write succeeds, a sentiment analyzer that raises or
returns a dict carrying an `error` key (which is also what it returns for
unparseable model output) does not fail the operation: the workflow
succeeds and the persisted entry has `primary_mood` equal to `neutral` and
the default sentiment record, whose `emotional_intensity` is 5. -/
theorem C2_sentiment_failure_is_soft
    (c : Collaborators) (nowTs uuidFull : String) (req : Request)
    (uid : String) (imgs : List ImageIn) (cap0 : String) (caps : List String)
    (metas : List EntryImage) (n : Nat) (story : String)
    (huid : req.user_id = some uid)
    (himgs : req.images = some imgs)
    (hloop : captionLoop c imgs 0 = (Except.ok (cap0 :: caps, metas), n))
    (hgen : c.generator (cap0 :: caps) (req.user_context.getD "")
      (req.tone.getD "heartwarming") = .ok story)
    (hstory : (story = "" ∨ pyStartsWith story "Error:" = true) → False)
    (hanal : (∃ m, c.analyzer story = .exn m) ∨
      (∃ s, c.analyzer story = .ok s ∧ s.error.isSome = true))
    (hput : c.putEntry = .ok ()) :
    (∃ eid t, (create_memoir_entry c nowTs uuidFull req).1 =
        HttpResult.ok eid t story defaultSentiment metas (pyWordCount story)) ∧
    ∃ entry, (create_memoir_entry c nowTs uuidFull req).2.savedEntry = some entry ∧
      entry.primary_mood = some "neutral" ∧
      entry.sentiment_analysis = defaultSentiment ∧
      entry.sentiment_analysis.emotional_intensity = some 5 := by
  have hsent : resolveSentiment c story = defaultSentiment := by
    unfold resolveSentiment
    rcases hanal with ⟨m, hm⟩ | ⟨s, hs, herrkey⟩
    · rw [hm]
    · rw [hs]; simp [herrkey]
  rw [workflow_saves c nowTs uuidFull req uid imgs cap0 caps metas n story
    huid himgs hloop hgen hstory hput, hsent]
  refine ⟨⟨_, _, rfl⟩, _, rfl, ?_, ?_, ?_⟩
  · rw [entryItem_primary_mood]; rfl
  · simp [entryItem, defaultSentiment, SentimentDict.isTruthy]
  · simp [entryItem, defaultSentiment, SentimentDict.isTruthy]

/-- Witness for C2: the analyzer raises on a one-image request; the
operation succeeds and the saved entry carries the neutral default
sentiment with intensity 5. -/
theorem C2_sentiment_failure_is_soft_witness :
    (∃ eid t, (create_memoir_entry Fixtures.analyzerFailsCollab Fixtures.tsA Fixtures.uuidA
        Fixtures.reqOne).1 = HttpResult.ok eid t "A lovely day full of small memories."
          defaultSentiment
          [{ image_id := "img_1", caption := "A photo of A", upload_order := 1,
             image_url := "placeholder://image_1.jpg" }]
          (pyWordCount "A lovely day full of small memories.")) ∧
    ∃ entry, (create_memoir_entry Fixtures.analyzerFailsCollab Fixtures.tsA Fixtures.uuidA
        Fixtures.reqOne).2.savedEntry = some entry ∧
      entry.primary_mood = some "neutral" ∧
      entry.sentiment_analysis = defaultSentiment ∧
      entry.sentiment_analysis.emotional_intensity = some 5 :=
  C2_sentiment_failure_is_soft Fixtures.analyzerFailsCollab Fixtures.tsA Fixtures.uuidA
    Fixtures.reqOne
    "user_1" [{ image_data := some "A" }] "A photo of A" []
    [{ image_id := "img_1", caption := "A photo of A", upload_order := 1,
       image_url := "placeholder://image_1.jpg" }] 1
    "A lovely day full of small memories."
    rfl rfl rfl rfl (by decide) (Or.inl ⟨"sentiment boom", rfl⟩) rfl

/-- Claim C3: when the request is valid, captioning and story generation
succeed and the store write succeeds, a title generator that raises,
returns a dict with an `error` key, or returns an empty string causes the
persisted title to be the deterministic fallback
`My + Capitalize(tone) + Memory`, with the tone taken from the request and
defaulting to `heartwarming` when absent. -/
theorem C3_title_failure_fallback
    (c : Collaborators) (nowTs uuidFull : String) (req : Request)
    (uid : String) (imgs : List ImageIn) (cap0 : String) (caps : List String)
    (metas : List EntryImage) (n : Nat) (story : String)
    (huid : req.user_id = some uid)
    (himgs : req.images = some imgs)
    (hloop : captionLoop c imgs 0 = (Except.ok (cap0 :: caps, metas), n))
    (hgen : c.generator (cap0 :: caps) (req.user_context.getD "")
      (req.tone.getD "heartwarming") = .ok story)
    (hstory : (story = "" ∨ pyStartsWith story "Error:" = true) → False)
    (htit : (∃ m, c.titler story (resolveSentiment c story) = .exn m) ∨
      (∃ m, c.titler story (resolveSentiment c story) = .ok (.errDict m)) ∨
      c.titler story (resolveSentiment c story) = .ok (.str ""))
    (hput : c.putEntry = .ok ()) :
    ∃ entry, (create_memoir_entry c nowTs uuidFull req).2.savedEntry = some entry ∧
      entry.title = "My " ++ pyCapitalize (req.tone.getD "heartwarming") ++ " Memory" := by
  have htitle : resolveTitle c story (resolveSentiment c story) (req.tone.getD "heartwarming") =
      fallbackTitle (req.tone.getD "heartwarming") := by
    unfold resolveTitle
    rcases htit with ⟨m, hm⟩ | ⟨m, hm⟩ | hm
    · rw [hm]
    · rw [hm]
    · rw [hm]
      simp
  rw [workflow_saves c nowTs uuidFull req uid imgs cap0 caps metas n story
    huid himgs hloop hgen hstory hput]
  exact ⟨_, rfl, by simp [entryItem, htitle, fallbackTitle]⟩

/-- Witness for C3: the titler raises on a request with tone
`adventurous`; the saved title is the capitalized fallback. -/
theorem C3_title_failure_fallback_witness :
    ∃ entry, (create_memoir_entry Fixtures.titlerFailsCollab Fixtures.tsA Fixtures.uuidA
        Fixtures.reqOneAdventurous).2.savedEntry = some entry ∧
      entry.title = "My " ++
        pyCapitalize (Fixtures.reqOneAdventurous.tone.getD "heartwarming") ++ " Memory" :=
  C3_title_failure_fallback Fixtures.titlerFailsCollab Fixtures.tsA Fixtures.uuidA
    Fixtures.reqOneAdventurous
    "user_1" [{ image_data := some "A" }] "A photo of A" []
    [{ image_id := "img_1", caption := "A photo of A", upload_order := 1,
       image_url := "placeholder://image_1.jpg" }] 1
    "A lovely day full of small memories."
    rfl rfl rfl rfl (by decide) (Or.inl ⟨"title boom", rfl⟩) rfl

/-- Counterexample to C4 as stated, in both of its parts.  With an
analyzer that returns the out-of-vocabulary mood `ecstatic` in a
well-formed record without an `error` key, the workflow persists an entry
whose `primary_mood` is `ecstatic`, outside the nine-value vocabulary and
different from `neutral` — the save path performs no vocabulary
validation.  And with an analyzer that returns the `primary_mood` key
present with a JSON null value (still no `error` key), the workflow
persists `primary_mood = none` — a DynamoDB NULL — because `dict.get`
substitutes its default only for an absent key, refuting `never null`. -/
theorem C4_mood_vocabulary_counterexample :
    ((create_memoir_entry Fixtures.offVocabCollab Fixtures.tsA Fixtures.uuidA
        Fixtures.reqOne).2.savedEntry.map Entry.primary_mood = some (some "ecstatic")) ∧
    ("ecstatic" ∈ valid_moods → False) ∧
    (("ecstatic" : String) = "neutral" → False) ∧
    ((create_memoir_entry Fixtures.nullMoodCollab Fixtures.tsA Fixtures.uuidA
        Fixtures.reqOne).2.savedEntry.map Entry.primary_mood = some none) := by
  refine ⟨by decide, by decide, by decide, by decide⟩

/-- Claim C4 (amended): for every entry persisted by the workflow, the
stored `primary_mood` equals `get(primary_mood, neutral)` of the sentiment
record left after the soft-failure substitution; in particular it is
`neutral` whenever the analyzer raised, reported an `error` key, or
returned a record without a `primary_mood` key, and otherwise it is a
verbatim, unvalidated copy of the value returned by the analyzer — which
may lie outside the nine-value vocabulary and is null when the key is
present with a null value, since the `get` default fires only for an
absent key. -/
theorem C4_primary_mood_unvalidated
    (c : Collaborators) (nowTs uuidFull : String) (req : Request)
    (uid : String) (imgs : List ImageIn) (cap0 : String) (caps : List String)
    (metas : List EntryImage) (n : Nat) (story : String)
    (huid : req.user_id = some uid)
    (himgs : req.images = some imgs)
    (hloop : captionLoop c imgs 0 = (Except.ok (cap0 :: caps, metas), n))
    (hgen : c.generator (cap0 :: caps) (req.user_context.getD "")
      (req.tone.getD "heartwarming") = .ok story)
    (hstory : (story = "" ∨ pyStartsWith story "Error:" = true) → False)
    (hput : c.putEntry = .ok ()) :
    ∃ entry, (create_memoir_entry c nowTs uuidFull req).2.savedEntry = some entry ∧
      entry.primary_mood = (resolveSentiment c story).getPrimaryMood ∧
      (∀ s, c.analyzer story = PyResult.ok s → s.error.isSome = false →
        entry.primary_mood = s.getPrimaryMood) ∧
      (∀ m, c.analyzer story = PyResult.exn m →
        entry.primary_mood = some "neutral") := by
  rw [workflow_saves c nowTs uuidFull req uid imgs cap0 caps metas n story
    huid himgs hloop hgen hstory hput]
  refine ⟨_, rfl, entryItem_primary_mood _ _ _ _ _ _ _ _ _, ?_, ?_⟩
  · intro s hs herr
    rw [entryItem_primary_mood]
    unfold resolveSentiment
    rw [hs]
    simp [herr]
  · intro m hm
    rw [entryItem_primary_mood]
    unfold resolveSentiment
    rw [hm]
    simp [defaultSentiment, SentimentDict.getPrimaryMood]

/-- Witness for the amended C4, at the out-of-vocabulary fixture. -/
theorem C4_primary_mood_unvalidated_witness :
    ∃ entry, (create_memoir_entry Fixtures.offVocabCollab Fixtures.tsA Fixtures.uuidA
        Fixtures.reqOne).2.savedEntry = some entry ∧
      entry.primary_mood = (resolveSentiment Fixtures.offVocabCollab
        "A lovely day full of small memories.").getPrimaryMood ∧
      (∀ s, Fixtures.offVocabCollab.analyzer "A lovely day full of small memories." =
          PyResult.ok s → s.error.isSome = false →
        entry.primary_mood = s.getPrimaryMood) ∧
      (∀ m, Fixtures.offVocabCollab.analyzer "A lovely day full of small memories." =
          PyResult.exn m → entry.primary_mood = some "neutral") :=
  C4_primary_mood_unvalidated Fixtures.offVocabCollab Fixtures.tsA Fixtures.uuidA
    Fixtures.reqOne
    "user_1" [{ image_data := some "A" }] "A photo of A" []
    [{ image_id := "img_1", caption := "A photo of A", upload_order := 1,
       image_url := "placeholder://image_1.jpg" }] 1
    "A lovely day full of small memories."
    rfl rfl rfl rfl (by decide) rfl

/-- Counterexample to C5 as stated: a request whose second image has empty
image data is rejected with a 400 validation error, yet the captioner has
already been invoked once (for the first image), so external calls are not
always avoided for validation-rejected requests. -/
theorem C5_validation_counterexample :
    (create_memoir_entry Fixtures.baseCollab Fixtures.tsA Fixtures.uuidA
        Fixtures.reqMissingData).1 = HttpResult.err 400 "Image 2 missing image_data" ∧
    (create_memoir_entry Fixtures.baseCollab Fixtures.tsA Fixtures.uuidA
        Fixtures.reqMissingData).2.captionerCalls = 1 ∧
    ((create_memoir_entry Fixtures.baseCollab Fixtures.tsA Fixtures.uuidA
        Fixtures.reqMissingData).2.captionerCalls = 0 → False) := by
  refine ⟨by decide, by decide, by decide⟩

/-- Claim C5 (amended): requests failing top-level validation (missing
`user_id`, or a missing or empty image list) are rejected with a 400 before
any collaborator call; an image with missing or empty image data is
rejected with a 400 naming that image before the story generator, the
analyzer, the titler, or the store is invoked — but the captioner has
already been called once per preceding image. -/
theorem C5_validation_ordering (c : Collaborators) (nowTs uuidFull : String) (req : Request) :
    (req.user_id = none →
      create_memoir_entry c nowTs uuidFull req = (.err 400 "user_id is required", {})) ∧
    (∀ uid, req.user_id = some uid → req.images = none ∨ req.images = some [] →
      create_memoir_entry c nowTs uuidFull req =
        (.err 400 "At least one image is required", {})) ∧
    (∀ uid imgs k, ∀ hk : k < imgs.length, req.user_id = some uid →
      req.images = some imgs →
      (∀ j (hj : j < k), ∃ v, captionStep c j imgs[j] = Except.ok v) →
      imgs[k].image_data = none ∨ imgs[k].image_data = some "" →
      create_memoir_entry c nowTs uuidFull req =
        (.err 400 ("Image " ++ toString (k + 1) ++ " missing image_data"),
          { captionerCalls := k })) := by
  refine ⟨?_, ?_, ?_⟩
  · intro h
    unfold create_memoir_entry
    rw [h]
  · intro uid huid him
    unfold create_memoir_entry
    rw [huid]
    rcases him with h | h <;> rw [h]
  · intro uid imgs k hk huid himgs hpre hbad
    have hstep : captionStep c k imgs[k] =
        Except.error (400, "Image " ++ toString (k + 1) ++ " missing image_data") := by
      unfold captionStep
      rcases hbad with h | h <;> rw [h]
      simp
    have hcalls : stepCalls imgs[k] = 0 := by
      unfold stepCalls
      rcases hbad with h | h <;> rw [h]
      simp
    have hloop := captionLoop_error_at0 c imgs k hk
      (by intro j hj; simpa [List.get_eq_getElem] using hpre j hj)
      _ (by simpa [List.get_eq_getElem] using hstep)
    cases imgs with
    | nil => exact absurd hk (by simp)
    | cons img0 rest =>
      unfold create_memoir_entry
      rw [huid, himgs]
      simp only [hloop]
      simp [List.get_eq_getElem] at hcalls
      simp [hcalls]

/-- Witness for the amended C5: a request with no user id is rejected with
no calls at all, and the two-image request whose second image has empty
data is rejected after exactly one captioner call. -/
theorem C5_validation_ordering_witness :
    create_memoir_entry Fixtures.baseCollab Fixtures.tsA Fixtures.uuidA Fixtures.reqNoUser =
      (.err 400 "user_id is required", {}) ∧
    create_memoir_entry Fixtures.baseCollab Fixtures.tsA Fixtures.uuidA Fixtures.reqMissingData =
      (.err 400 ("Image " ++ toString (1 + 1) ++ " missing image_data"),
        { captionerCalls := 1 }) := by
  constructor
  · exact (C5_validation_ordering Fixtures.baseCollab Fixtures.tsA Fixtures.uuidA
      Fixtures.reqNoUser).1 rfl
  · apply (C5_validation_ordering Fixtures.baseCollab Fixtures.tsA Fixtures.uuidA
      Fixtures.reqMissingData).2.2 "user_1"
      [{ image_data := some "A" }, { image_data := some "" }] 1 (by decide) rfl rfl
      (?_) (Or.inr rfl)
    intro j hj
    have hj0 : j = 0 := by omega
    subst hj0
    exact ⟨_, rfl⟩

/-- Claim C6: every entry written by `save_journal_entry` stores a
`word_count` equal to the number of whitespace-delimited tokens of its
`story_content` (Python `str.split` semantics) and an
`estimated_read_time` equal to `max 1 (word_count / 200)` minutes formatted
as a string. -/
theorem C6_derived_fields (po : PyResult Unit) (nowTs uuidFull : String)
    (uid title story ctx tone : String) (images : List EntryImage)
    (sentiment : Option SentimentDict) (eid : String) (e : Entry)
    (h : save_journal_entry po nowTs uuidFull uid title story ctx tone images sentiment =
      .ok (eid, e)) :
    e.word_count = (pySplit e.story_content).length ∧
    e.estimated_read_time = toString (max 1 (e.word_count / 200)) ++ " min" := by
  unfold save_journal_entry at h
  cases po with
  | exn m => simp at h
  | ok u =>
    simp only [PyResult.ok.injEq, Prod.mk.injEq] at h
    obtain ⟨h1, h2⟩ := h
    subst h2
    constructor
    · simp [entryItem, pyWordCount]
    · simp [entryItem, pyWordCount]

/-- Witness for C6 at a concrete three-word story. -/
theorem C6_derived_fields_witness :
    (entryItem Fixtures.tsA Fixtures.uuidA "user_1" "Title" "one two three" "" "heartwarming"
      [] none).word_count =
      (pySplit (entryItem Fixtures.tsA Fixtures.uuidA "user_1" "Title" "one two three" ""
        "heartwarming" [] none).story_content).length ∧
    (entryItem Fixtures.tsA Fixtures.uuidA "user_1" "Title" "one two three" "" "heartwarming"
      [] none).estimated_read_time =
      toString (max 1 ((entryItem Fixtures.tsA Fixtures.uuidA "user_1" "Title" "one two three"
        "" "heartwarming" [] none).word_count / 200)) ++ " min" :=
  C6_derived_fields (.ok ()) Fixtures.tsA Fixtures.uuidA "user_1" "Title" "one two three" ""
    "heartwarming" [] none
    (entryItem Fixtures.tsA Fixtures.uuidA "user_1" "Title" "one two three" "" "heartwarming"
      [] none).entry_id
    (entryItem Fixtures.tsA Fixtures.uuidA "user_1" "Title" "one two three" "" "heartwarming"
      [] none)
    rfl

/-- Claim C7: deleting a non-existent entry returns false and leaves the
store unchanged (no counter decrement); deleting an existing entry returns
true, removes the entry, and decrements the owner counter by one with a
floor of zero (the decrement is skipped when the counter is already zero
or the user record is absent), other users are untouched, and an injected
failure of the decrement does not fail the delete. -/
theorem C7_delete_entry_spec (st : DBState) (decFault : Bool) (u e : String) :
    (st.hasEntry u e = false → delete_entry st decFault u e = (false, st)) ∧
    (st.hasEntry u e = true →
      (delete_entry st decFault u e).1 = true ∧
      (delete_entry st decFault u e).2.hasEntry u e = false ∧
      (decFault = true → (delete_entry st decFault u e).2.totalEntries = st.totalEntries) ∧
      (decFault = false →
        (delete_entry st decFault u e).2.totalEntries u =
          match st.totalEntries u with
          | none => none
          | some n => some (if 0 < n then n - 1 else n)) ∧
      (∀ v, v ≠ u → (delete_entry st decFault u e).2.totalEntries v = st.totalEntries v)) := by
  constructor
  · intro h
    unfold delete_entry
    simp [h]
  · intro h
    unfold delete_entry
    simp only [h, if_true]
    refine ⟨by trivial, ?_, ?_, ?_, ?_⟩
    · rw [decrementCounter_hasEntry]
      simp
    · intro hf
      subst hf
      rfl
    · intro hf
      subst hf
      exact decrementCounter_totalEntries_self _ u
    · intro v hv
      exact decrementCounter_totalEntries_other _ decFault u v hv

/-- Witness for C7 at a concrete store with one user owning entry `e1` and
a counter of 2. -/
theorem C7_delete_entry_spec_witness :
    delete_entry Fixtures.stOne false "user_1" "zzz" = (false, Fixtures.stOne) ∧
    (delete_entry Fixtures.stOne false "user_1" "e1").1 = true ∧
    (delete_entry Fixtures.stOne false "user_1" "e1").2.hasEntry "user_1" "e1" = false ∧
    (delete_entry Fixtures.stOne false "user_1" "e1").2.totalEntries "user_1" =
      match Fixtures.stOne.totalEntries "user_1" with
      | none => none
      | some n => some (if 0 < n then n - 1 else n) := by
  refine ⟨?_, ?_, ?_, ?_⟩
  · exact (C7_delete_entry_spec Fixtures.stOne false "user_1" "zzz").1 (by decide)
  · exact ((C7_delete_entry_spec Fixtures.stOne false "user_1" "e1").2 (by decide)).1
  · exact ((C7_delete_entry_spec Fixtures.stOne false "user_1" "e1").2 (by decide)).2.1
  · exact ((C7_delete_entry_spec Fixtures.stOne false "user_1" "e1").2 (by decide)).2.2.2.1 rfl

/-- Claim C8: whatever rows the store returns, the favorites query result
contains only entries with `is_favorite = true`, has length at most
`limit`, and is sorted by `created_at` descending when `newest_first` is
true and ascending otherwise. -/
theorem C8_favorites_spec (rows : List Entry) (limit : Nat) (newest_first : Bool) :
    (∀ e, e ∈ get_favorite_entries rows limit newest_first → e.is_favorite = true) ∧
    (get_favorite_entries rows limit newest_first).length ≤ limit ∧
    (newest_first = true → List.Pairwise (fun a b => b.created_at ≤ a.created_at)
      (get_favorite_entries rows limit newest_first)) ∧
    (newest_first = false → List.Pairwise (fun a b => a.created_at ≤ b.created_at)
      (get_favorite_entries rows limit newest_first)) := by
  cases newest_first with
  | true =>
    refine ⟨?_, ?_, ?_, ?_⟩
    · intro e he
      unfold get_favorite_entries at he
      simp only [Bool.not_true, if_true] at he
      have h1 := List.take_subset _ _ he
      rw [List.mem_mergeSort] at h1
      simp [dynamoQueryFavorites] at h1
      exact h1.2
    · exact List.length_take_le _ _
    · intro hx
      unfold get_favorite_entries
      simp only [Bool.not_true, if_true]
      exact (mergeSort_createdDesc_sorted _).sublist (List.take_sublist _ _)
    · intro hx
      exact absurd hx (by simp)
  | false =>
    refine ⟨?_, ?_, ?_, ?_⟩
    · intro e he
      unfold get_favorite_entries at he
      simp only [Bool.not_false, Bool.false_eq_true, if_false] at he
      have h1 := List.take_subset _ _ he
      rw [List.mem_mergeSort] at h1
      simp [dynamoQueryFavorites] at h1
      exact h1.2
    · exact List.length_take_le _ _
    · intro hx
      exact absurd hx (by simp)
    · intro hx
      unfold get_favorite_entries
      simp only [Bool.not_false, Bool.false_eq_true, if_false]
      exact (mergeSort_createdAsc_sorted _).sublist (List.take_sublist _ _)

/-- Witness for C8 at a one-favorite store with limit 1, newest first. -/
theorem C8_favorites_spec_witness :
    Fixtures.favEntry.is_favorite = true ∧
    (get_favorite_entries [Fixtures.favEntry] 1 true).length ≤ 1 ∧
    List.Pairwise (fun a b : Entry => b.created_at ≤ a.created_at)
      (get_favorite_entries [Fixtures.favEntry] 1 true) := by
  refine ⟨?_, ?_, ?_⟩
  · exact (C8_favorites_spec [Fixtures.favEntry] 1 true).1 Fixtures.favEntry
      (by simp [get_favorite_entries, dynamoQueryFavorites, Fixtures.favEntry])
  · exact (C8_favorites_spec [Fixtures.favEntry] 1 true).2.1
  · exact (C8_favorites_spec [Fixtures.favEntry] 1 true).2.2.1 rfl

/-- Claim C9: the list-by-mood endpoint rejects any mood outside the fixed
nine-value vocabulary with a 400 validation error without querying the
store, and queries the store exactly for moods inside the vocabulary. -/
theorem C9_mood_validation (dbQuery : String → String → Nat → List Entry)
    (user_id mood : String) (limit : Nat) :
    (mood ∉ valid_moods →
      get_entries_by_mood_endpoint dbQuery user_id mood limit =
        (.badRequest "Invalid mood", false)) ∧
    (mood ∈ valid_moods →
      get_entries_by_mood_endpoint dbQuery user_id mood limit =
        (.ok (dbQuery user_id mood limit), true)) := by
  constructor
  · intro h
    unfold get_entries_by_mood_endpoint
    simp [h]
  · intro h
    unfold get_entries_by_mood_endpoint
    simp [h]

/-- Witness for C9: `angry` is rejected without a store query, `joyful`
reaches the store. -/
theorem C9_mood_validation_witness :
    get_entries_by_mood_endpoint (fun _ _ _ => []) "user_1" "angry" 20 =
      (MoodResult.badRequest "Invalid mood", false) ∧
    get_entries_by_mood_endpoint (fun _ _ _ => []) "user_1" "joyful" 20 =
      (MoodResult.ok [], true) := by
  constructor
  · exact (C9_mood_validation (fun _ _ _ => []) "user_1" "angry" 20).1 (by decide)
  · exact (C9_mood_validation (fun _ _ _ => []) "user_1" "joyful" 20).2 (by decide)

/-- Claim C10: every entry written by `save_journal_entry` starts with
`is_favorite = false`, `privacy_level = private`, empty tags, and
`updated_at` equal to `created_at`; its id is `ENTRY_` followed by the
creation timestamp with `:` and `.` replaced by `-`, an underscore, and an
8-character random suffix, and for timestamps of the fixed ISO shape the
creation timestamp is recoverable from the cleaned form embedded in the
id. -/
theorem C10_entry_defaults (po : PyResult Unit) (nowTs uuidFull : String)
    (uid title story ctx tone : String) (images : List EntryImage)
    (sentiment : Option SentimentDict) (eid : String) (e : Entry)
    (h : save_journal_entry po nowTs uuidFull uid title story ctx tone images sentiment =
      .ok (eid, e))
    (hiso : isoShape nowTs = true) (hlen : 8 ≤ uuidFull.length) :
    e.is_favorite = false ∧
    e.privacy_level = "private" ∧
    e.tags = ([] : List String) ∧
    e.updated_at = e.created_at ∧
    e.created_at = nowTs ∧
    e.entry_id = "ENTRY_" ++ cleanTimestamp nowTs ++ "_" ++ pyTake8 uuidFull ∧
    (pyTake8 uuidFull).length = 8 ∧
    recoverTimestamp (cleanTimestamp nowTs) = nowTs := by
  unfold save_journal_entry at h
  cases po with
  | exn m => simp at h
  | ok u =>
    simp only [PyResult.ok.injEq, Prod.mk.injEq] at h
    obtain ⟨h1, h2⟩ := h
    subst h2
    refine ⟨rfl, rfl, rfl, rfl, rfl, rfl, ?_, ?_⟩
    · show (String.mk (uuidFull.data.take 8)).length = 8
      have hl : uuidFull.length = uuidFull.data.length := rfl
      simp only [String.length, List.length_take]
      omega
    · unfold recoverTimestamp cleanTimestamp
      unfold isoShape at hiso
      rw [Bool.and_eq_true] at hiso
      congr 1
      exact recoverAux_clean nowTs.data 0 hiso.2

/-- Witness for C10 at a concrete timestamp and uuid. -/
theorem C10_entry_defaults_witness :
    (entryItem Fixtures.tsA Fixtures.uuidA "user_1" "Title" "a story" "" "heartwarming"
      [] none).is_favorite = false ∧
    (entryItem Fixtures.tsA Fixtures.uuidA "user_1" "Title" "a story" "" "heartwarming"
      [] none).privacy_level = "private" ∧
    (entryItem Fixtures.tsA Fixtures.uuidA "user_1" "Title" "a story" "" "heartwarming"
      [] none).tags = ([] : List String) ∧
    (entryItem Fixtures.tsA Fixtures.uuidA "user_1" "Title" "a story" "" "heartwarming"
      [] none).updated_at =
      (entryItem Fixtures.tsA Fixtures.uuidA "user_1" "Title" "a story" "" "heartwarming"
        [] none).created_at ∧
    (entryItem Fixtures.tsA Fixtures.uuidA "user_1" "Title" "a story" "" "heartwarming"
      [] none).created_at = Fixtures.tsA ∧
    (entryItem Fixtures.tsA Fixtures.uuidA "user_1" "Title" "a story" "" "heartwarming"
      [] none).entry_id =
      "ENTRY_" ++ cleanTimestamp Fixtures.tsA ++ "_" ++ pyTake8 Fixtures.uuidA ∧
    (pyTake8 Fixtures.uuidA).length = 8 ∧
    recoverTimestamp (cleanTimestamp Fixtures.tsA) = Fixtures.tsA :=
  C10_entry_defaults (.ok ()) Fixtures.tsA Fixtures.uuidA "user_1" "Title" "a story" ""
    "heartwarming" [] none
    (entryItem Fixtures.tsA Fixtures.uuidA "user_1" "Title" "a story" "" "heartwarming"
      [] none).entry_id
    (entryItem Fixtures.tsA Fixtures.uuidA "user_1" "Title" "a story" "" "heartwarming"
      [] none)
    rfl (by decide) (by decide)

end MemoirAI
